import Mathlib

/-!
Shallow embedding of the scheduling and conflict-classification engine of
the project planner (source file: src/planner.py, function generate_plan
and the constants it uses).

Modelling conventions:
- Calendar dates are parsed by the source from ISO YYYY-MM-DD strings into
  datetime values and only compared (or advanced by one day).  We model a
  date as an integer day ordinal (Int); one day is the integer 1, and the
  comparison operators coincide with the source's datetime comparisons.
- Optional values (Python None) are modelled with Option.  A Python
  datetime object is always truthy, so a test of the form: if some_date:
  corresponds to Option.isSome; Python None-or-empty-string truthiness on
  strings gets its own helper (truthy_str), and None-or-empty-list
  truthiness on filter values is expanded in the filter helpers.
- The current date (datetime.now().date(), read in the Overdue check) is
  passed in as an explicit parameter named now.
- The float-valued estimated_hours pass-through field carries no logic in
  generate_plan and is omitted from the record; every field the function
  reads or branches on is present.
-/

/-- A normalized task record, the element type of the all_tasks list that
generate_plan builds in its flattening loop (src/planner.py lines 116-156).
Dates are day ordinals, absent values are none. -/
structure TaskInfo where
  customer : String
  packet : String
  task : String
  start_date : Option Int
  due_date : Option Int
  status : String
  assignee : String
  health_color : Option String
  task_health_status : Option String
  issue_type : String
  is_subtask : Bool
  parent_key : Option String
  priority : Option String
  fix_version_date : Option Int
  fix_version_name : Option String
  sprint_name : Option String
  sprint_state : Option String
deriving DecidableEq, Repr

/-- The filter configuration consumed by generate_plan.  A key absent from
the configuration dictionary is none; date bounds are already parsed. -/
structure Filters where
  resource : Option (List String)
  priority : Option (List String)
  task_status : Option (List String)
  customers : Option (List String)
  from_start_date : Option Int
  to_end_date : Option Int
  schedule_status : Option (List String)
  conflict : Option (List String)
deriving DecidableEq, Repr

/-- An entry of the per-resource interval index
resource_all_tasks_for_conflict_check (src/planner.py lines 217-223). -/
structure IndexInterval where
  start : Int
  end_ : Int
  key : String
  issue_type : String
  parent_key : Option String
deriving DecidableEq, Repr

/-- One element of the final_schedule list built at
src/planner.py lines 287-305. -/
structure ScheduleEntry where
  resource : String
  customer : String
  task : String
  start_date : Option Int
  due_date : Option Int
  task_status : String
  schedule_status : String
  health_color : Option String
  task_health_status : Option String
  conflicting_tasks : List String
  issue_type : String
  priority : Option String
  fix_version_date : Option Int
  fix_version_name : Option String
  sprint_name : Option String
  sprint_state : Option String
deriving DecidableEq, Repr

/-- PRIORITY_ORDER_MAP (src/planner.py lines 53-59) combined with the
dictionary lookup .get(priority, PRIORITY_ORDER_MAP[None]) used by the
normalizer: the keys P0-P3 map to 0-3 and everything else, the None key
included, falls back to 99. -/
def PRIORITY_ORDER_MAP : Option String → Nat
  | some "P0" => 0
  | some "P1" => 1
  | some "P2" => 2
  | some "P3" => 3
  | _ => 99

/-- Python truthiness of an optional string: None and the empty string are
falsy.  Used by the hierarchy-suppression test, which guards two of its
equality checks with the bare value (src/planner.py lines 262-263). -/
def truthy_str : Option String → Bool
  | none => false
  | some s => !(s == "")

/-- The identity key of a task: the token before the first space of its
display name, task.split(' ')[0] in the source (lines 220 and 243).
Python split(' ') cuts at every single space, so the first piece is the
longest leading run of non-space characters (empty when the name is empty
or starts with a space); we compute it directly on the character list. -/
def task_key (task : TaskInfo) : String :=
  String.mk (task.task.data.takeWhile (fun c => !(c == ' ')))

/-- One allow-list filter clause of the pre-generation filter loop
(src/planner.py lines 163-172): a missing key or an empty list is falsy in
Python and imposes no constraint, otherwise the value must be a member. -/
def pass_allow (fl : Option (List String)) (v : String) : Bool :=
  match fl with
  | none => true
  | some l => if l.isEmpty then true else l.contains v

/-- The priority allow-list clause (line 167): the task's priority may be
None, and None is never a member of the configured string list. -/
def pass_priority (fl : Option (List String)) (v : Option String) : Bool :=
  match fl with
  | none => true
  | some l =>
    if l.isEmpty then true
    else
      match v with
      | some p => l.contains p
      | none => false

/-- The from_start_date clause (line 173): excludes only when both the
bound and the task's start date exist and start is strictly earlier. -/
def pass_from (bound : Option Int) (s : Option Int) : Bool :=
  match bound, s with
  | some d, some x => !(decide (x < d))
  | _, _ => true

/-- The to_end_date clause (line 175): excludes only when both the bound
and the task's fix-version date exist and the latter is strictly later. -/
def pass_to (bound : Option Int) (fv : Option Int) : Bool :=
  match bound, fv with
  | some d, some x => !(decide (d < x))
  | _, _ => true

/-- The keep_task decision of the pre-generation filter loop
(src/planner.py lines 163-179): the six clauses are AND-combined. -/
def keep_task (filters : Filters) (task : TaskInfo) : Bool :=
  pass_allow filters.resource task.assignee &&
  pass_priority filters.priority task.priority &&
  pass_allow filters.task_status task.status &&
  pass_allow filters.customers task.customer &&
  pass_from filters.from_start_date task.start_date &&
  pass_to filters.to_end_date task.fix_version_date

/-- Sort-key component: a Python sort key tuple slot holds a datetime, a
string, or an integer, depending on the configured sort field. -/
inductive SKey where
  | dt (v : Int)
  | str (v : String)
  | num (v : Nat)
deriving DecidableEq, Repr

/-- Constructor index, used only to make the component order total on
slots of different shapes; within one run all slots at the same position
have the same shape, as in the Python tuples. -/
def SKey.ctorIdx : SKey → Nat
  | .dt _ => 0
  | .str _ => 1
  | .num _ => 2

/-- Non-strict comparison of two sort-key components, agreeing with the
Python comparison of the corresponding tuple slots. -/
def SKey.le : SKey → SKey → Bool
  | .dt a, .dt b => decide (a ≤ b)
  | .str a, .str b => decide (a ≤ b)
  | .num a, .num b => decide (a ≤ b)
  | a, b => decide (a.ctorIdx ≤ b.ctorIdx)

/-- Lexicographic non-strict comparison of whole sort keys, agreeing with
Python tuple comparison for keys built from the same field list. -/
def key_le : List SKey → List SKey → Bool
  | [], _ => true
  | _ :: _, [] => false
  | a :: as, b :: bs =>
    if SKey.le a b then (if SKey.le b a then key_le as bs else true)
    else false

/-- Stand-in for datetime.max in the start_date sort key (line 189): every
date parsed from a YYYY-MM-DD string is strictly smaller, because the day
ordinal of 9999-12-31 is 3652059 and datetime.max additionally carries the
maximal time of day. -/
def DATETIME_MAX : Int := 3652060

/-- get_sort_key (src/planner.py lines 183-197): builds the composite key
for the configured sort fields; unrecognized fields contribute nothing. -/
def get_sort_key (sort_by_fields : List String) (task_item : TaskInfo) : List SKey :=
  sort_by_fields.filterMap fun sort_field =>
    if sort_field == "start_date" then
      some (.dt (task_item.start_date.getD DATETIME_MAX))
    else if sort_field == "customer" then some (.str task_item.customer)
    else if sort_field == "resource" then some (.str task_item.assignee)
    else if sort_field == "priority" then
      some (.num (PRIORITY_ORDER_MAP task_item.priority))
    else none

/-- The ordering relation of the sort at src/planner.py line 199. -/
def sort_rel (sort_by_fields : List String) (a b : TaskInfo) : Prop :=
  key_le (get_sort_key sort_by_fields a) (get_sort_key sort_by_fields b) = true

instance (sort_by_fields : List String) : DecidableRel (sort_rel sort_by_fields) :=
  fun _ _ => instDecidableEqBool _ _

/-- all_tasks.sort(key=get_sort_key) (line 199): Python list.sort is a
stable ascending sort, modelled by the stable insertionSort under the same
total preorder. -/
def sort_tasks (sort_by_fields : List String) (tasks : List TaskInfo) : List TaskInfo :=
  List.insertionSort (sort_rel sort_by_fields) tasks

/-- The effective end date computed when building the interval index
(src/planner.py lines 208-214): fix-version date when it exists and start
is absent or not later; else due date; else start date plus one day. -/
def task_effective_end_date (task : TaskInfo) : Option Int :=
  if task.fix_version_date.isSome &&
      (task.start_date.isNone ||
        decide (task.start_date.getD 0 ≤ task.fix_version_date.getD 0)) then
    task.fix_version_date
  else if task.due_date.isSome then task.due_date
  else if task.start_date.isSome then task.start_date.map (· + 1)
  else none

/-- The effective end date recomputed for the task under classification
(src/planner.py lines 234-240); the source repeats the code verbatim. -/
def classify_effective_end_date (task : TaskInfo) : Option Int :=
  if task.fix_version_date.isSome &&
      (task.start_date.isNone ||
        decide (task.start_date.getD 0 ≤ task.fix_version_date.getD 0)) then
    task.fix_version_date
  else if task.due_date.isSome then task.due_date
  else if task.start_date.isSome then task.start_date.map (· + 1)
  else none

/-- The interval a task contributes to its resource's index, if any
(src/planner.py lines 216-223): only tasks with a start date and a
computable effective end date contribute. -/
def mk_interval (task : TaskInfo) : Option IndexInterval :=
  match task.start_date, task_effective_end_date task with
  | some s, some e =>
    some { start := s, end_ := e, key := task_key task,
           issue_type := task.issue_type, parent_key := task.parent_key }
  | _, _ => none

/-- The interval list of one resource in
resource_all_tasks_for_conflict_check (src/planner.py lines 202-223):
the contributing tasks' intervals in list order.  A lookup of a resource
that never occurs yields the empty list, matching .get(resource, []). -/
def conflict_check_intervals (all_tasks : List TaskInfo) (resource : String) : List IndexInterval :=
  all_tasks.filterMap fun task =>
    if task.assignee == resource then mk_interval task else none

/-- The overlap test of the classifier scan (src/planner.py lines
258-260): the task needs a start date and an effective end date, and the
spans must strictly cross.  The scheduled interval's start and end always
exist (datetime values are truthy), so only the strict inequalities remain
for them. -/
def overlap_test (task : TaskInfo) (iv : IndexInterval) : Bool :=
  task.start_date.isSome && (classify_effective_end_date task).isSome &&
  decide (task.start_date.getD 0 < iv.end_) &&
  decide (iv.start < (classify_effective_end_date task).getD 0)

/-- hierarchical_conflict_condition (src/planner.py lines 262-265): the
four-way disjunction that suppresses an overlap.  The first two disjuncts
guard the compared parent key with Python truthiness; the two Epic
disjuncts compare the possibly-absent parent key directly, and None never
equals a string. -/
def hierarchical_conflict_condition (task : TaskInfo) (iv : IndexInterval) : Bool :=
  (truthy_str task.parent_key && task.parent_key == some iv.key) ||
  (truthy_str iv.parent_key && iv.parent_key == some (task_key task)) ||
  (task.issue_type == "Epic" && iv.parent_key == some (task_key task)) ||
  (iv.issue_type == "Epic" && task.parent_key == some iv.key)

/-- The conflict scan loop over the same-resource intervals
(src/planner.py lines 247-272), with the accumulated list of conflicting
keys made explicit: an interval whose key equals the task's own key is
skipped, an overlapping interval that survives hierarchy suppression
appends its key. -/
def conflict_loop (task : TaskInfo) : List IndexInterval → List String → List String
  | [], acc => acc
  | iv :: rest, acc =>
    if iv.key == task_key task then conflict_loop task rest acc
    else if overlap_test task iv then
      if hierarchical_conflict_condition task iv then conflict_loop task rest acc
      else conflict_loop task rest (acc ++ [iv.key])
    else conflict_loop task rest acc

/-- conflicting_tasks_details for one task: the scan started from the
empty accumulator (src/planner.py line 229). -/
def conflicting_tasks_details (task : TaskInfo) (ivs : List IndexInterval) : List String :=
  conflict_loop task ivs []

/-- The schedule-status decision (src/planner.py lines 228-285): tasks
with status Completed keep the initial On Time; otherwise a null due date
gives Error, then a non-empty conflict list gives Conflict!, then a due
date before the current date gives Overdue, then a fix-version date after
the due date gives Late, else On Time. -/
def schedule_status_of (now : Int) (task : TaskInfo) (details : List String) : String :=
  if task.status == "Completed" then "On Time"
  else if task.due_date.isNone then "Error"
  else if !details.isEmpty then "Conflict!"
  else if task.due_date.isSome && decide (task.due_date.getD 0 < now) then "Overdue"
  else if task.fix_version_date.isSome && task.due_date.isSome &&
      decide (task.due_date.getD 0 < task.fix_version_date.getD 0) then "Late"
  else "On Time"

/-- One iteration of the classification loop (src/planner.py lines
226-305): a Completed task skips the conflict scan and keeps the empty
conflict list, every task yields a Schedule Entry. -/
def classify_entry (now : Int) (all_tasks : List TaskInfo) (task : TaskInfo) : ScheduleEntry :=
  let details :=
    if task.status == "Completed" then []
    else conflicting_tasks_details task (conflict_check_intervals all_tasks task.assignee)
  { resource := task.assignee
    customer := task.customer
    task := task.task
    start_date := task.start_date
    due_date := task.due_date
    task_status := task.status
    schedule_status := schedule_status_of now task details
    health_color := task.health_color
    task_health_status := task.task_health_status
    conflicting_tasks := details
    issue_type := task.issue_type
    priority := task.priority
    fix_version_date := task.fix_version_date
    fix_version_name := task.fix_version_name
    sprint_name := task.sprint_name
    sprint_state := task.sprint_state }

/-- The post-generation filter decision (src/planner.py lines 308-319):
the schedule_status allow-list behaves like the pre-generation ones, and
the conflict filter compares for the literal lists True and False. -/
def post_keep (filters : Filters) (entry : ScheduleEntry) : Bool :=
  pass_allow filters.schedule_status entry.schedule_status &&
  !(decide (filters.conflict = some ["True"]) && entry.conflicting_tasks.isEmpty) &&
  !(decide (filters.conflict = some ["False"]) && !entry.conflicting_tasks.isEmpty)

/-- generate_plan (src/planner.py lines 112-321) from the flattened task
list onward: filter, stable sort, build the interval index from the sorted
filtered list, classify every task of that same list, post-filter.  The
declared resource list only seeds empty index buckets (lookups default to
the empty list) and the resource_schedules dictionary of line 114 is never
read, so the parameter is unused. -/
def generate_plan (now : Int) (_resources : List String) (all_tasks : List TaskInfo)
    (sort_by_fields : List String) (filters : Filters) : List ScheduleEntry :=
  let filtered := all_tasks.filter (keep_task filters)
  let sorted := sort_tasks sort_by_fields filtered
  (sorted.map (classify_entry now sorted)).filter (post_keep filters)

/-- Effective end date as worded in the specification (spec section 4.4),
for comparison with the two copies in the source: first match wins among
fix-version date (when present and not earlier than a present start), due
date, and start date plus one day. -/
def effective_end_spec (task : TaskInfo) : Option Int :=
  match task.fix_version_date, task.start_date, task.due_date with
  | some f, none, _ => some f
  | some f, some s, d =>
    if s ≤ f then some f
    else
      match d with
      | some dd => some dd
      | none => some (s + 1)
  | none, _, some dd => some dd
  | none, some s, none => some (s + 1)
  | none, none, none => none

/-- A base task record with every optional field absent, used as the
template for the concrete inputs below. -/
def baseTask : TaskInfo :=
  { customer := "c", packet := "p", task := "T-1 sample",
    start_date := none, due_date := none, status := "Open",
    assignee := "r", health_color := none, task_health_status := none,
    issue_type := "Task", is_subtask := false, parent_key := none,
    priority := none, fix_version_date := none, fix_version_name := none,
    sprint_name := none, sprint_state := none }

/-- The empty filter configuration: every key absent. -/
def noFilters : Filters :=
  { resource := none, priority := none, task_status := none,
    customers := none, from_start_date := none, to_end_date := none,
    schedule_status := none, conflict := none }

/-- A Completed task with a null due date. -/
def tC1 : TaskInfo :=
  { baseTask with task := "C1-1 done", status := "Completed",
                  start_date := some 0 }

/-- A task whose parent-key reference is the empty string. -/
def tC4A : TaskInfo :=
  { baseTask with task := "A4-1 child", parent_key := some "",
                  start_date := some 0, due_date := some 2 }

/-- A task whose display name is empty, so its identity key is the empty
string; it overlaps tC4A on the same resource. -/
def tC4B : TaskInfo :=
  { baseTask with task := "", start_date := some 0, due_date := some 2 }

/-- An open task overlapping tC7B on the same resource. -/
def tC7A : TaskInfo :=
  { baseTask with task := "A7-1 open", start_date := some 0, due_date := some 2 }

/-- A Completed task overlapping tC7A on the same resource. -/
def tC7B : TaskInfo :=
  { baseTask with task := "B7-1 done", status := "Completed",
                  start_date := some 0, due_date := some 2 }

/-- An open task with a null due date whose derived interval (start plus
one day) overlaps tC10B. -/
def tC10A : TaskInfo :=
  { baseTask with task := "A10-1 nodue", start_date := some 0 }

/-- An open task overlapping tC10A on the same resource. -/
def tC10B : TaskInfo :=
  { baseTask with task := "B10-1 due", start_date := some 0, due_date := some 2 }

/-- A task with priority token Lowest. -/
def tLowest : TaskInfo := { baseTask with task := "L-1 low", priority := some "Lowest" }

/-- A task with priority token Highest. -/
def tHighest : TaskInfo := { baseTask with task := "H-1 high", priority := some "Highest" }


/-- The first entry generate_plan produces for the base task alone (the
base task is open and has no due date). -/
def eW1 : ScheduleEntry :=
  (generate_plan 0 [] [baseTask] [] noFilters).headD (classify_entry 0 [] baseTask)

/-- The first entry generate_plan produces for the Completed task tC1. -/
def eW2 : ScheduleEntry :=
  (generate_plan 0 [] [tC1] [] noFilters).headD (classify_entry 0 [] tC1)

/-- A concrete interval whose end coincides with tC7A's start date. -/
def ivW3 : IndexInterval :=
  { start := -5, end_ := 0, key := "Z-1", issue_type := "Task", parent_key := none }

/-- A parent task with a non-empty identity key. -/
def tPar : TaskInfo :=
  { baseTask with task := "P-1 parent", start_date := some 0, due_date := some 2 }

/-- A direct child of tPar, overlapping it on the same resource. -/
def tChd : TaskInfo :=
  { baseTask with task := "CH-1 child", parent_key := some "P-1",
                  start_date := some 0, due_date := some 2 }

/-- An open task overlapping tS2 on the same resource. -/
def tS1 : TaskInfo :=
  { baseTask with task := "S1-1 a", start_date := some 0, due_date := some 2 }

/-- An open task overlapping tS1 on the same resource. -/
def tS2 : TaskInfo :=
  { baseTask with task := "S2-1 b", start_date := some 0, due_date := some 2 }

/-- A task with priority token P0 and a late start date. -/
def tP0 : TaskInfo :=
  { baseTask with task := "Z0-1 p0", priority := some "P0", start_date := some 5 }

/-- A task with priority token P4 and an early start date. -/
def tP4 : TaskInfo :=
  { baseTask with task := "Z4-1 p4", priority := some "P4", start_date := some 1 }

/-- A task with null priority. -/
def tNullP : TaskInfo := { baseTask with task := "ZN-1 nullprio" }

/-- A task with a due date but no start date. -/
def tNoStart : TaskInfo := { baseTask with task := "NS-1 x", due_date := some 2 }

/-- The filter configuration with only conflict set to the list True. -/
def filtersTrue : Filters := { noFilters with conflict := some ["True"] }

/-- The filter configuration with only conflict set to the list False. -/
def filtersFalse : Filters := { noFilters with conflict := some ["False"] }

/-- A filter configuration with a resource allow-list and a start bound. -/
def F8 : Filters :=
  { noFilters with resource := some ["r"], from_start_date := some 0 }

/-! Helper lemmas shared by the claim theorems. -/

/-- The two verbatim copies of the effective-end computation agree. -/
theorem classify_eq_task_effective_end (task : TaskInfo) :
    classify_effective_end_date task = task_effective_end_date task := rfl

theorem conflict_loop_append (task : TaskInfo) :
    ∀ (ivs : List IndexInterval) (acc : List String),
      conflict_loop task ivs acc = acc ++ conflict_loop task ivs [] := by
  intro ivs
  induction ivs with
  | nil => intro acc; simp [conflict_loop]
  | cons iv rest ih =>
    intro acc
    by_cases h1 : (iv.key == task_key task) = true
    · simp only [conflict_loop, if_pos h1]
      exact ih acc
    · by_cases h2 : overlap_test task iv = true
      · by_cases h3 : hierarchical_conflict_condition task iv = true
        · simp only [conflict_loop, if_neg h1, if_pos h2, if_pos h3]
          exact ih acc
        · simp only [conflict_loop, if_neg h1, if_pos h2, if_neg h3]
          rw [ih (acc ++ [iv.key]), ih (List.nil ++ [iv.key])]
          simp [List.append_assoc]
      · simp only [conflict_loop, if_neg h1, if_neg h2]
        exact ih acc

theorem conflicting_cons (task : TaskInfo) (iv : IndexInterval)
    (rest : List IndexInterval) :
    conflicting_tasks_details task (iv :: rest) =
      (if !(iv.key == task_key task) && overlap_test task iv &&
          !(hierarchical_conflict_condition task iv) then [iv.key] else []) ++
        conflicting_tasks_details task rest := by
  unfold conflicting_tasks_details
  cases h1 : (iv.key == task_key task) with
  | true => simp [conflict_loop, h1]
  | false =>
    cases h2 : overlap_test task iv with
    | false => simp [conflict_loop, h1, h2]
    | true =>
      cases h3 : hierarchical_conflict_condition task iv with
      | true => simp [conflict_loop, h1, h2, h3]
      | false =>
        have step : conflict_loop task (iv :: rest) [] =
            conflict_loop task rest (List.nil ++ [iv.key]) := by
          simp [conflict_loop, h1, h2, h3]
        rw [step, conflict_loop_append task rest (List.nil ++ [iv.key])]
        simp [h1, h2, h3]

/-- The conflict scan collects, in order, the keys of the intervals that
are not the task's own, overlap it, and are not hierarchy-suppressed. -/
theorem conflicting_tasks_details_eq (task : TaskInfo) :
    ∀ ivs : List IndexInterval,
      conflicting_tasks_details task ivs =
        (ivs.filter fun iv =>
          !(iv.key == task_key task) && overlap_test task iv &&
            !(hierarchical_conflict_condition task iv)).map (fun iv => iv.key) := by
  intro ivs
  induction ivs with
  | nil => rfl
  | cons iv rest ih =>
    rw [conflicting_cons, ih]
    by_cases hp : (!(iv.key == task_key task) && overlap_test task iv &&
        !(hierarchical_conflict_condition task iv)) = true
    · rw [if_pos hp]
      simp [List.filter_cons, hp]
    · have hp' : (!(iv.key == task_key task) && overlap_test task iv &&
          !(hierarchical_conflict_condition task iv)) = false := by simpa using hp
      rw [if_neg hp]
      simp [List.filter_cons, hp']

theorem mem_conflicting_tasks_details {task : TaskInfo} {ivs : List IndexInterval}
    {k : String} :
    k ∈ conflicting_tasks_details task ivs ↔
      ∃ iv, iv ∈ ivs ∧ iv.key = k ∧ (iv.key == task_key task) = false ∧
        overlap_test task iv = true ∧
        hierarchical_conflict_condition task iv = false := by
  rw [conflicting_tasks_details_eq]
  simp only [List.mem_map, List.mem_filter, Bool.and_eq_true, Bool.not_eq_true']
  constructor
  · rintro ⟨iv, ⟨hm, ⟨hk, ho⟩, hh⟩, he⟩
    exact ⟨iv, hm, he, hk, ho, hh⟩
  · rintro ⟨iv, hm, he, hk, ho, hh⟩
    exact ⟨iv, ⟨hm, ⟨hk, ho⟩, hh⟩, he⟩

theorem mem_conflict_check_intervals {all_tasks : List TaskInfo} {r : String}
    {iv : IndexInterval} :
    iv ∈ conflict_check_intervals all_tasks r ↔
      ∃ u, u ∈ all_tasks ∧ u.assignee = r ∧ mk_interval u = some iv := by
  simp only [conflict_check_intervals, List.mem_filterMap]
  constructor
  · rintro ⟨u, hu, h⟩
    by_cases ha : u.assignee = r
    · rw [if_pos (by simpa using ha)] at h
      exact ⟨u, hu, ha, h⟩
    · rw [if_neg (by simpa using ha)] at h
      cases h
  · rintro ⟨u, hu, ha, h⟩
    exact ⟨u, hu, by rw [if_pos (by simpa using ha)]; exact h⟩

theorem mk_interval_eq_some {task : TaskInfo} {iv : IndexInterval} :
    mk_interval task = some iv ↔
      ∃ s e, task.start_date = some s ∧ task_effective_end_date task = some e ∧
        iv = { start := s, end_ := e, key := task_key task,
               issue_type := task.issue_type, parent_key := task.parent_key } := by
  unfold mk_interval
  cases hs : task.start_date <;> cases he : task_effective_end_date task <;>
    simp [hs, he, eq_comm]

theorem overlap_test_iff {task : TaskInfo} {iv : IndexInterval} :
    overlap_test task iv = true ↔
      ∃ s e, task.start_date = some s ∧ classify_effective_end_date task = some e ∧
        s < iv.end_ ∧ iv.start < e := by
  unfold overlap_test
  cases hs : task.start_date <;> cases he : classify_effective_end_date task <;>
    simp [hs, he]

/-- Hierarchy suppression is symmetric in the task and the interval-owner
roles: the four disjuncts swap pairwise. -/
theorem hier_symm (A B : TaskInfo) (s1 e1 s2 e2 : Int) :
    hierarchical_conflict_condition A
      { start := s1, end_ := e1, key := task_key B,
        issue_type := B.issue_type, parent_key := B.parent_key } =
    hierarchical_conflict_condition B
      { start := s2, end_ := e2, key := task_key A,
        issue_type := A.issue_type, parent_key := A.parent_key } := by
  apply Bool.coe_iff_coe.mp
  simp only [hierarchical_conflict_condition, Bool.or_eq_true, Bool.and_eq_true]
  tauto

theorem classify_entry_task_status (now : Int) (all_tasks : List TaskInfo)
    (task : TaskInfo) :
    (classify_entry now all_tasks task).task_status = task.status := rfl

theorem classify_entry_due_date (now : Int) (all_tasks : List TaskInfo)
    (task : TaskInfo) :
    (classify_entry now all_tasks task).due_date = task.due_date := rfl

theorem classify_entry_conflicting_tasks (now : Int) (all_tasks : List TaskInfo)
    (task : TaskInfo) :
    (classify_entry now all_tasks task).conflicting_tasks =
      if task.status == "Completed" then []
      else conflicting_tasks_details task (conflict_check_intervals all_tasks task.assignee) := rfl

theorem classify_entry_schedule_status (now : Int) (all_tasks : List TaskInfo)
    (task : TaskInfo) :
    (classify_entry now all_tasks task).schedule_status =
      schedule_status_of now task (classify_entry now all_tasks task).conflicting_tasks := rfl

theorem mem_generate_plan {now : Int} {resources : List String}
    {all_tasks : List TaskInfo} {sort_by_fields : List String}
    {filters : Filters} {e : ScheduleEntry} :
    e ∈ generate_plan now resources all_tasks sort_by_fields filters ↔
      (∃ t ∈ sort_tasks sort_by_fields (all_tasks.filter (keep_task filters)),
        classify_entry now (sort_tasks sort_by_fields (all_tasks.filter (keep_task filters))) t = e) ∧
      post_keep filters e = true := by
  unfold generate_plan
  simp [List.mem_filter, List.mem_map]

theorem schedule_status_of_error {now : Int} {task : TaskInfo}
    {details : List String} (h1 : task.status ≠ "Completed")
    (h2 : task.due_date = none) :
    schedule_status_of now task details = "Error" := by
  unfold schedule_status_of
  rw [if_neg (by simpa using h1), if_pos (by simp [h2])]

theorem schedule_status_of_empty_ne_conflict {now : Int} {task : TaskInfo} :
    schedule_status_of now task [] ≠ "Conflict!" := by
  unfold schedule_status_of
  split_ifs <;> simp_all

theorem SKey.le_refl (a : SKey) : SKey.le a a = true := by
  cases a <;> simp [SKey.le]

theorem key_le_refl : ∀ ks : List SKey, key_le ks ks = true
  | [] => rfl
  | a :: as => by simp [key_le, SKey.le_refl, key_le_refl as]

theorem get_sort_key_priority (t : TaskInfo) :
    get_sort_key ["priority"] t = [SKey.num (PRIORITY_ORDER_MAP t.priority)] := rfl

theorem key_le_num (x y : Nat) :
    key_le [SKey.num x] [SKey.num y] = decide (x ≤ y) := by
  by_cases h : x ≤ y
  · by_cases h' : y ≤ x <;> simp [key_le, SKey.le, h, h']
  · simp [key_le, SKey.le, h]

theorem sort_rel_priority (a b : TaskInfo) :
    sort_rel ["priority"] a b ↔
      PRIORITY_ORDER_MAP a.priority ≤ PRIORITY_ORDER_MAP b.priority := by
  rw [sort_rel, get_sort_key_priority, get_sort_key_priority, key_le_num]
  simp

/-- Sorting with the single configured field priority orders the result by
non-decreasing priority rank. -/
theorem sort_tasks_priority_sorted (l : List TaskInfo) :
    (sort_tasks ["priority"] l).Pairwise
      (fun a b => PRIORITY_ORDER_MAP a.priority ≤ PRIORITY_ORDER_MAP b.priority) := by
  haveI : IsTotal TaskInfo (sort_rel ["priority"]) :=
    ⟨fun a b => by
      rw [sort_rel_priority, sort_rel_priority]
      exact Nat.le_total _ _⟩
  haveI : IsTrans TaskInfo (sort_rel ["priority"]) :=
    ⟨fun a b c hab hbc => by
      rw [sort_rel_priority] at hab hbc ⊢
      exact le_trans hab hbc⟩
  exact (List.sorted_insertionSort (sort_rel ["priority"]) l).imp
    (fun h => (sort_rel_priority _ _).mp h)

/-- The sort is stable: a list whose composite keys are all equal in list
order is returned unchanged. -/
theorem sort_tasks_stable (sort_by_fields : List String) (l : List TaskInfo)
    (h : l.Pairwise (fun a b =>
      get_sort_key sort_by_fields a = get_sort_key sort_by_fields b)) :
    sort_tasks sort_by_fields l = l := by
  apply List.Sorted.insertionSort_eq
  refine h.imp (fun hab => ?_)
  rw [sort_rel, hab]
  exact key_le_refl _

theorem truthy_eq_iff (x : Option String) (k : String) :
    (truthy_str x && x == some k) = true ↔ ∃ p, x = some p ∧ p ≠ "" ∧ p = k := by
  cases x <;> simp [truthy_str]

theorem truthy_str_eq_iff (x : Option String) (k : String) :
    (truthy_str x = true ∧ x = some k) ↔ ∃ p, x = some p ∧ p ≠ "" ∧ p = k := by
  cases x <;> simp [truthy_str]

theorem pass_allow_iff (fl : Option (List String)) (v : String) :
    pass_allow fl v = true ↔ ∀ l, fl = some l → l ≠ [] → v ∈ l := by
  cases fl with
  | none => simp [pass_allow]
  | some l =>
    cases l with
    | nil => simp [pass_allow]
    | cons a as => simp [pass_allow, List.elem_iff]

theorem pass_priority_iff (fl : Option (List String)) (v : Option String) :
    pass_priority fl v = true ↔
      ∀ l, fl = some l → l ≠ [] → ∃ p, v = some p ∧ p ∈ l := by
  cases fl with
  | none => simp [pass_priority]
  | some l =>
    cases l with
    | nil => simp [pass_priority]
    | cons a as =>
      cases v with
      | none => simp [pass_priority]
      | some p => simp [pass_priority, List.elem_iff]

theorem pass_from_iff (bound : Option Int) (s : Option Int) :
    pass_from bound s = true ↔
      ∀ d x, bound = some d → s = some x → ¬ x < d := by
  cases bound <;> cases s <;> simp [pass_from]

theorem pass_to_iff (bound : Option Int) (fv : Option Int) :
    pass_to bound fv = true ↔
      ∀ d x, bound = some d → fv = some x → ¬ d < x := by
  cases bound <;> cases fv <;> simp [pass_to]

/-- Claim C1, counterexample: the rule that a null due date forces the
Error status does not take precedence over every other condition.  For a
task with status Completed and a null due date, generate_plan emits the
status On Time, not Error: the Completed bypass is checked first. -/
theorem C1_counterexample :
    tC1.due_date = none ∧ tC1.status = "Completed" ∧
      (generate_plan 0 [] [tC1] [] noFilters).map (fun e => e.schedule_status) =
        ["On Time"] := by decide

/-- Claim C1 (amended): for every Schedule Entry produced by generate_plan
whose task status is not the literal Completed and whose due date is null,
the schedule status is exactly Error, independent of conflicts and taking
precedence over conflict detection and the remaining status rules. -/
theorem C1_null_due_error (now : Int) (resources : List String)
    (all_tasks : List TaskInfo) (sort_by_fields : List String)
    (filters : Filters) (e : ScheduleEntry)
    (he : e ∈ generate_plan now resources all_tasks sort_by_fields filters)
    (hst : e.task_status ≠ "Completed") (hd : e.due_date = none) :
    e.schedule_status = "Error" := by
  obtain ⟨⟨t, _, ht⟩, _⟩ := mem_generate_plan.mp he
  rw [← ht] at hst hd ⊢
  rw [classify_entry_task_status] at hst
  rw [classify_entry_due_date] at hd
  rw [classify_entry_schedule_status]
  exact schedule_status_of_error hst hd

/-- Claim C1 witness: the amended theorem applied to the entry of a
concrete open task with a null due date. -/
theorem C1_null_due_error_witness : eW1.schedule_status = "Error" :=
  C1_null_due_error 0 [] [baseTask] [] noFilters eW1 (by decide) (by decide)
    (by decide)

/-- Claim C2: every Schedule Entry produced by generate_plan for a task
with status exactly Completed has schedule status On Time and an empty
conflicting-tasks list, regardless of overlapping intervals on the same
resource (the classification body is skipped entirely). -/
theorem C2_completed_on_time (now : Int) (resources : List String)
    (all_tasks : List TaskInfo) (sort_by_fields : List String)
    (filters : Filters) (e : ScheduleEntry)
    (he : e ∈ generate_plan now resources all_tasks sort_by_fields filters)
    (hst : e.task_status = "Completed") :
    e.schedule_status = "On Time" ∧ e.conflicting_tasks = [] := by
  obtain ⟨⟨t, _, ht⟩, _⟩ := mem_generate_plan.mp he
  rw [← ht] at hst ⊢
  rw [classify_entry_task_status] at hst
  have hc : (classify_entry now
      (sort_tasks sort_by_fields (all_tasks.filter (keep_task filters)))
      t).conflicting_tasks = [] := by
    rw [classify_entry_conflicting_tasks, if_pos (by simp [hst])]
  refine ⟨?_, hc⟩
  rw [classify_entry_schedule_status, hc]
  unfold schedule_status_of
  rw [if_pos (by simp [hst])]

/-- Claim C2 witness: the theorem applied to the entry of a concrete
Completed task. -/
theorem C2_completed_on_time_witness :
    eW2.schedule_status = "On Time" ∧ eW2.conflicting_tasks = [] :=
  C2_completed_on_time 0 [] [tC1] [] noFilters eW2 (by decide) (by decide)

/-- Claim C3: in the classification scan, a same-resource interval counts
as an overlap for the task under test exactly when the task has a start
date and a computable effective end date and the spans strictly cross;
touching endpoints (the task's effective end equal to the interval's
start, or the task's start equal to the interval's end) never count; and
intervals whose identity key equals the task's own key are never compared
with the task (removing them from the scanned list changes nothing). -/
theorem C3_overlap_rule (task : TaskInfo) (iv : IndexInterval)
    (ivs : List IndexInterval) :
    (overlap_test task iv = true ↔
      ∃ s e, task.start_date = some s ∧ classify_effective_end_date task = some e ∧
        s < iv.end_ ∧ iv.start < e) ∧
    ((task.start_date = some iv.end_ ∨ classify_effective_end_date task = some iv.start) →
      overlap_test task iv = false) ∧
    conflicting_tasks_details task ivs =
      conflicting_tasks_details task
        (ivs.filter fun x => !(x.key == task_key task)) := by
  refine ⟨overlap_test_iff, ?_, ?_⟩
  · intro h
    cases hov : overlap_test task iv with
    | false => rfl
    | true =>
      exfalso
      obtain ⟨s, e, hs, he, h1, h2⟩ := overlap_test_iff.mp hov
      cases h with
      | inl hEq =>
        rw [hEq] at hs
        injection hs with hs'
        rw [← hs'] at h1
        exact lt_irrefl _ h1
      | inr hEq =>
        rw [hEq] at he
        injection he with he'
        rw [← he'] at h2
        exact lt_irrefl _ h2
  · rw [conflicting_tasks_details_eq, conflicting_tasks_details_eq,
      List.filter_filter]
    apply congrArg
    apply List.filter_congr
    intro x _
    cases hx : (x.key == task_key task) <;> simp [hx]

/-- Claim C3 witness: the touching-endpoints clause applied to a concrete
task and interval whose endpoints coincide. -/
theorem C3_overlap_rule_witness : overlap_test tC7A ivW3 = false :=
  (C3_overlap_rule tC7A ivW3 []).2.1 (Or.inl rfl)

/-- Claim C4, counterexample: suppression is not exhaustive as stated.
Here tC4A's parent key (the empty string) equals the key of tC4B's
interval (tC4B's display name is empty), so tC4B is tC4A's direct parent
by identity key; yet the overlap is recorded in both directions, because
the source guards the first two suppression checks with Python truthiness
and an empty-string parent key is falsy. -/
theorem C4_counterexample :
    tC4A.parent_key = some (task_key tC4B) ∧
      (generate_plan 0 [] [tC4A, tC4B] [] noFilters).map
          (fun e => e.conflicting_tasks) =
        [[task_key tC4B], [task_key tC4A]] := by decide

/-- Claim C4 (amended): an overlap is suppressed precisely when the task's
parent key is non-empty and equals the interval's key, or the interval's
parent key is non-empty and equals the task's key, or the task is an Epic
and the interval's parent key equals the task's key, or the interval is an
Epic and the task's parent key equals the interval's key.  Consequently a
parent with a non-empty identity key and its direct child on the same
resource with overlapping intervals never appear in each other's conflict
lists, when identity keys are unique among the classified tasks. -/
theorem C4_hierarchy_suppression :
    (∀ (task : TaskInfo) (iv : IndexInterval),
      hierarchical_conflict_condition task iv = true ↔
        (∃ p, task.parent_key = some p ∧ p ≠ "" ∧ p = iv.key) ∨
        (∃ p, iv.parent_key = some p ∧ p ≠ "" ∧ p = task_key task) ∨
        (task.issue_type = "Epic" ∧ iv.parent_key = some (task_key task)) ∨
        (iv.issue_type = "Epic" ∧ task.parent_key = some iv.key)) ∧
    (∀ (now : Int) (all_tasks : List TaskInfo) (P C : TaskInfo),
      P ∈ all_tasks → C ∈ all_tasks → C.assignee = P.assignee →
      C.parent_key = some (task_key P) → task_key P ≠ "" →
      (∀ u ∈ all_tasks, ∀ v ∈ all_tasks, task_key u = task_key v → u = v) →
      task_key P ∉ (classify_entry now all_tasks C).conflicting_tasks ∧
      task_key C ∉ (classify_entry now all_tasks P).conflicting_tasks) := by
  constructor
  · intro task iv
    simp only [hierarchical_conflict_condition, Bool.or_eq_true,
      Bool.and_eq_true, beq_iff_eq, truthy_str_eq_iff]
    rw [or_assoc, or_assoc]
  · intro now all_tasks P C hP hC _hres hparent hPkey huniq
    have hPbeq : (task_key P == "") = false := by
      simp [hPkey]
    constructor
    · intro hk
      rw [classify_entry_conflicting_tasks] at hk
      by_cases hcs : (C.status == "Completed") = true
      · rw [if_pos hcs] at hk
        exact absurd hk (List.not_mem_nil _)
      · rw [if_neg hcs] at hk
        obtain ⟨iv, hiv, hkeq, _, _, hh⟩ := mem_conflicting_tasks_details.mp hk
        obtain ⟨u, hu, _, hmk⟩ := mem_conflict_check_intervals.mp hiv
        obtain ⟨s, e, _, _, hiveq⟩ := mk_interval_eq_some.mp hmk
        have hup : u = P := by
          apply huniq u hu P hP
          rw [hiveq] at hkeq
          exact hkeq
        have : hierarchical_conflict_condition C iv = true := by
          rw [hiveq, hup]
          simp [hierarchical_conflict_condition, hparent, truthy_str, hPbeq]
        rw [this] at hh
        cases hh
    · intro hk
      rw [classify_entry_conflicting_tasks] at hk
      by_cases hcs : (P.status == "Completed") = true
      · rw [if_pos hcs] at hk
        exact absurd hk (List.not_mem_nil _)
      · rw [if_neg hcs] at hk
        obtain ⟨iv, hiv, hkeq, _, _, hh⟩ := mem_conflicting_tasks_details.mp hk
        obtain ⟨u, hu, _, hmk⟩ := mem_conflict_check_intervals.mp hiv
        obtain ⟨s, e, _, _, hiveq⟩ := mk_interval_eq_some.mp hmk
        have hup : u = C := by
          apply huniq u hu C hC
          rw [hiveq] at hkeq
          exact hkeq
        have : hierarchical_conflict_condition P iv = true := by
          rw [hiveq, hup]
          simp [hierarchical_conflict_condition, hparent, truthy_str, hPbeq]
        rw [this] at hh
        cases hh

/-- Claim C4 witness: the amended parent-child consequence applied to a
concrete parent with a non-empty key and its direct child. -/
theorem C4_hierarchy_suppression_witness :
    task_key tPar ∉ (classify_entry 0 [tPar, tChd] tChd).conflicting_tasks ∧
      task_key tChd ∉ (classify_entry 0 [tPar, tChd] tPar).conflicting_tasks :=
  C4_hierarchy_suppression.2 0 [tPar, tChd] tPar tChd (by decide) (by decide)
    (by decide) (by decide) (by decide) (by decide)

/-- Claim C5: the effective end date used for interval building and the
one recomputed for the task under classification both follow the
first-match-wins precedence of the specification: the fix-version date
when present and either no start date exists or the fix-version date is
not earlier than it; else the due date when present; else the start date
plus one day when a start date is present; else no effective end date
exists.  The same rule is applied identically at both program points. -/
theorem C5_effective_end_precedence (task : TaskInfo) :
    task_effective_end_date task = effective_end_spec task ∧
      classify_effective_end_date task = effective_end_spec task := by
  have h : task_effective_end_date task = effective_end_spec task := by
    unfold task_effective_end_date effective_end_spec
    cases hf : task.fix_version_date <;> cases hs : task.start_date <;>
      cases hd : task.due_date <;> simp [hf, hs, hd]
  exact ⟨h, by rw [classify_eq_task_effective_end]; exact h⟩

/-- Claim C6: a task without a start date contributes no interval to any
resource's interval list, its own entry has no conflicts and can never
carry the status Conflict!, its identity key never appears in any entry's
conflicting-tasks list (identity keys assumed unique), and it still yields
a Schedule Entry in the classified output. -/
theorem C6_no_start_invisible (now : Int) (all_tasks : List TaskInfo)
    (t : TaskInfo) (hmem : t ∈ all_tasks) (hstart : t.start_date = none)
    (huniq : ∀ u ∈ all_tasks, task_key u = task_key t → u = t) :
    mk_interval t = none ∧
    (∀ r iv, iv ∈ conflict_check_intervals all_tasks r → iv.key ≠ task_key t) ∧
    (classify_entry now all_tasks t).conflicting_tasks = [] ∧
    (classify_entry now all_tasks t).schedule_status ≠ "Conflict!" ∧
    (∀ u, task_key t ∉ (classify_entry now all_tasks u).conflicting_tasks) ∧
    classify_entry now all_tasks t ∈ all_tasks.map (classify_entry now all_tasks) := by
  have hmk : mk_interval t = none := by simp [mk_interval, hstart]
  have hkeys : ∀ r iv, iv ∈ conflict_check_intervals all_tasks r →
      iv.key ≠ task_key t := by
    intro r iv hiv hkey
    obtain ⟨u, hu, _, hmku⟩ := mem_conflict_check_intervals.mp hiv
    obtain ⟨s, e, hs, _, hiveq⟩ := mk_interval_eq_some.mp hmku
    have hut : u = t := by
      apply huniq u hu
      rw [hiveq] at hkey
      exact hkey
    rw [hut, hstart] at hs
    cases hs
  have hov : ∀ iv, overlap_test t iv = false := by
    intro iv
    simp [overlap_test, hstart]
  have hconf : (classify_entry now all_tasks t).conflicting_tasks = [] := by
    rw [classify_entry_conflicting_tasks]
    by_cases hcs : (t.status == "Completed") = true
    · rw [if_pos hcs]
    · rw [if_neg hcs]
      simp [conflicting_tasks_details_eq, hov]
  refine ⟨hmk, hkeys, hconf, ?_, ?_, List.mem_map_of_mem _ hmem⟩
  · rw [classify_entry_schedule_status, hconf]
    exact schedule_status_of_empty_ne_conflict
  · intro u hk
    rw [classify_entry_conflicting_tasks] at hk
    by_cases hcs : (u.status == "Completed") = true
    · rw [if_pos hcs] at hk
      exact absurd hk (List.not_mem_nil _)
    · rw [if_neg hcs] at hk
      obtain ⟨iv, hiv, hkeq, _, _, _⟩ := mem_conflicting_tasks_details.mp hk
      exact hkeys _ iv hiv hkeq

/-- Claim C6 witness: the theorem applied to a concrete start-less task. -/
theorem C6_no_start_invisible_witness :
    mk_interval tNoStart = none ∧
    (∀ r iv, iv ∈ conflict_check_intervals [tNoStart, tS1] r →
      iv.key ≠ task_key tNoStart) ∧
    (classify_entry 0 [tNoStart, tS1] tNoStart).conflicting_tasks = [] ∧
    (classify_entry 0 [tNoStart, tS1] tNoStart).schedule_status ≠ "Conflict!" ∧
    (∀ u, task_key tNoStart ∉ (classify_entry 0 [tNoStart, tS1] u).conflicting_tasks) ∧
    classify_entry 0 [tNoStart, tS1] tNoStart ∈
      [tNoStart, tS1].map (classify_entry 0 [tNoStart, tS1]) :=
  C6_no_start_invisible 0 [tNoStart, tS1] tNoStart (by decide) (by decide)
    (by decide)

/-- Claim C7, counterexample: conflict reporting is not symmetric as
stated.  The Completed task tC7B contributes an interval that marks the
open task tC7A as Conflict! with tC7B's key recorded, but tC7B itself
skips the scan and records nothing. -/
theorem C7_counterexample :
    (generate_plan 0 [] [tC7A, tC7B] [] noFilters).map
        (fun e => (e.task_status, e.conflicting_tasks)) =
      [("Open", [task_key tC7B]), ("Completed", [])] := by decide

/-- Claim C7 (amended): conflict reporting is symmetric between tasks
that both undergo classification.  For tasks A and B of the classified
set on the same resource, neither with status Completed and with identity
keys unique in the set, if B's key appears in A's conflicting-tasks list
then A's key appears in B's. -/
theorem C7_conflict_symmetry (now : Int) (all_tasks : List TaskInfo)
    (A B : TaskInfo) (hA : A ∈ all_tasks) (hB : B ∈ all_tasks)
    (hres : A.assignee = B.assignee)
    (hAs : A.status ≠ "Completed") (hBs : B.status ≠ "Completed")
    (huniq : ∀ u ∈ all_tasks, ∀ v ∈ all_tasks, task_key u = task_key v → u = v)
    (hmem : task_key B ∈ (classify_entry now all_tasks A).conflicting_tasks) :
    task_key A ∈ (classify_entry now all_tasks B).conflicting_tasks := by
  rw [classify_entry_conflicting_tasks, if_neg (by simpa using hAs)] at hmem
  obtain ⟨iv, hiv, hkeq, hkne, hov, hh⟩ := mem_conflicting_tasks_details.mp hmem
  obtain ⟨u, hu, _, hmk⟩ := mem_conflict_check_intervals.mp hiv
  obtain ⟨sB, eB, hsB, heB, hiveq⟩ := mk_interval_eq_some.mp hmk
  have huB : u = B := by
    apply huniq u hu B hB
    rw [hiveq] at hkeq
    exact hkeq
  rw [huB] at hiveq hsB heB
  obtain ⟨sA, eA, hsA, heA, h1, h2⟩ := overlap_test_iff.mp hov
  rw [hiveq] at h1 h2 hh hkne
  have hmkA : mk_interval A = some
      { start := sA, end_ := eA, key := task_key A,
        issue_type := A.issue_type, parent_key := A.parent_key } :=
    mk_interval_eq_some.mpr
      ⟨sA, eA, hsA, by rw [← classify_eq_task_effective_end]; exact heA, rfl⟩
  rw [classify_entry_conflicting_tasks, if_neg (by simpa using hBs)]
  apply mem_conflicting_tasks_details.mpr
  refine ⟨{ start := sA, end_ := eA, key := task_key A,
            issue_type := A.issue_type, parent_key := A.parent_key },
    ?_, rfl, ?_, ?_, ?_⟩
  · exact mem_conflict_check_intervals.mpr ⟨A, hA, hres, hmkA⟩
  · simp only [beq_eq_false_iff_ne, ne_eq] at hkne ⊢
    intro h
    exact hkne h.symm
  · apply overlap_test_iff.mpr
    exact ⟨sB, eB, hsB,
      by rw [classify_eq_task_effective_end]; exact heB, h2, h1⟩
  · rw [hier_symm B A sA eA sB eB]
    exact hh

/-- Claim C7 witness: the amended symmetry applied to two concrete open
overlapping tasks. -/
theorem C7_conflict_symmetry_witness :
    task_key tS1 ∈ (classify_entry 0 [tS1, tS2] tS2).conflicting_tasks :=
  C7_conflict_symmetry 0 [tS1, tS2] tS1 tS2 (by decide) (by decide) (by decide)
    (by decide) (by decide) (by decide) (by decide)

/-- Claim C8: the pre-generation filter keeps a task exactly when all
present filter clauses hold, AND-combined; an absent key (or an empty
allow-list, which is falsy in Python and behaves as absent) imposes no
constraint; a from-start bound excludes only tasks whose start date exists
and is strictly earlier; a to-end bound excludes only tasks whose
fix-version date exists and is strictly later, so tasks with a null start
or null fix-version date always pass the respective bound. -/
theorem C8_filter_semantics (filters : Filters) (task : TaskInfo) :
    keep_task filters task = true ↔
      ((∀ l, filters.resource = some l → l ≠ [] → task.assignee ∈ l) ∧
       (∀ l, filters.priority = some l → l ≠ [] →
         ∃ p, task.priority = some p ∧ p ∈ l) ∧
       (∀ l, filters.task_status = some l → l ≠ [] → task.status ∈ l) ∧
       (∀ l, filters.customers = some l → l ≠ [] → task.customer ∈ l) ∧
       (∀ d x, filters.from_start_date = some d → task.start_date = some x →
         ¬ x < d) ∧
       (∀ d x, filters.to_end_date = some d → task.fix_version_date = some x →
         ¬ d < x)) := by
  unfold keep_task
  simp only [Bool.and_eq_true, pass_allow_iff, pass_priority_iff,
    pass_from_iff, pass_to_iff]
  tauto

/-- Claim C8 witness: the filter characterization instantiated at a
concrete configuration with a resource allow-list and a start bound. -/
theorem C8_filter_semantics_witness :
    (∀ l, F8.resource = some l → l ≠ [] → tS1.assignee ∈ l) ∧
    (∀ l, F8.priority = some l → l ≠ [] → ∃ p, tS1.priority = some p ∧ p ∈ l) ∧
    (∀ l, F8.task_status = some l → l ≠ [] → tS1.status ∈ l) ∧
    (∀ l, F8.customers = some l → l ≠ [] → tS1.customer ∈ l) ∧
    (∀ d x, F8.from_start_date = some d → tS1.start_date = some x → ¬ x < d) ∧
    (∀ d x, F8.to_end_date = some d → tS1.fix_version_date = some x → ¬ d < x) :=
  (C8_filter_semantics F8 tS1).mp (by decide)

/-- Claim C9, counterexample: the priority rank map knows only the tokens
P0 through P3.  The tokens Highest, P4 and Lowest all map to rank 99, not
to 0 or 4, so a task with token Highest is not placed before one with
token Lowest (their ranks tie and the stable sort keeps input order); a
null-priority task does not sort after a P4 task (same tie); and when the
key sequence merely includes priority after another key, the earlier key
dominates and a P4 task can precede a P0 task. -/
theorem C9_counterexample :
    PRIORITY_ORDER_MAP (some "Highest") = 99 ∧
    PRIORITY_ORDER_MAP (some "P4") = 99 ∧
    PRIORITY_ORDER_MAP (some "Lowest") = 99 ∧
    sort_tasks ["priority"] [tLowest, tHighest] = [tLowest, tHighest] ∧
    sort_tasks ["priority"] [tNullP, tP4] = [tNullP, tP4] ∧
    sort_tasks ["start_date", "priority"] [tP0, tP4] = [tP4, tP0] := by decide

/-- Claim C9 (amended): when the configured sort key sequence is exactly
the single field priority, the output is ordered by non-decreasing
priority rank, where P0 through P3 map to ranks 0 through 3 and every
other token, P4 and null included, maps to rank 99; hence a P0 task is
placed before any P4 or null-priority task; and the multi-key sort is
stable, so tasks with identical composite keys preserve their
normalizer-output order. -/
theorem C9_priority_sort :
    (PRIORITY_ORDER_MAP (some "P0") = 0 ∧ PRIORITY_ORDER_MAP (some "P1") = 1 ∧
     PRIORITY_ORDER_MAP (some "P2") = 2 ∧ PRIORITY_ORDER_MAP (some "P3") = 3 ∧
     PRIORITY_ORDER_MAP (some "P4") = 99 ∧ PRIORITY_ORDER_MAP none = 99) ∧
    (∀ l : List TaskInfo, (sort_tasks ["priority"] l).Pairwise
      (fun a b => PRIORITY_ORDER_MAP a.priority ≤ PRIORITY_ORDER_MAP b.priority)) ∧
    (∀ (sort_by_fields : List String) (l : List TaskInfo),
      l.Pairwise (fun a b =>
        get_sort_key sort_by_fields a = get_sort_key sort_by_fields b) →
      sort_tasks sort_by_fields l = l) :=
  ⟨by decide, sort_tasks_priority_sorted, sort_tasks_stable⟩

/-- Claim C9 witness: stability applied to a concrete list whose two tasks
share the composite key. -/
theorem C9_priority_sort_witness :
    sort_tasks ["priority"] [tLowest, tHighest] = [tLowest, tHighest] :=
  C9_priority_sort.2.2 ["priority"] [tLowest, tHighest] (by decide)

/-- Claim C10: a non-Completed task with a null due date still undergoes
the full overlap scan; its entry carries status Error together with the
surviving conflicting keys, so an Error entry can have a non-empty
conflicting-tasks list; the post-filter conflict set to the list True
retains any entry with conflicts (when no schedule-status filter is set)
and conflict set to the list False removes it; the concrete pair tC10A,
tC10B exhibits all of this end to end through generate_plan. -/
theorem C10_error_with_conflicts :
    (∀ (now : Int) (all_tasks : List TaskInfo) (t : TaskInfo),
      t.status ≠ "Completed" → t.due_date = none →
      (classify_entry now all_tasks t).schedule_status = "Error" ∧
      (classify_entry now all_tasks t).conflicting_tasks =
        conflicting_tasks_details t (conflict_check_intervals all_tasks t.assignee)) ∧
    (∀ (filters : Filters) (e : ScheduleEntry),
      filters.conflict = some ["True"] → filters.schedule_status = none →
      e.conflicting_tasks ≠ [] → post_keep filters e = true) ∧
    (∀ (filters : Filters) (e : ScheduleEntry),
      filters.conflict = some ["False"] → e.conflicting_tasks ≠ [] →
      post_keep filters e = false) ∧
    (generate_plan 0 [] [tC10A, tC10B] [] filtersTrue).map
        (fun e => (e.schedule_status, e.conflicting_tasks)) =
      [("Error", [task_key tC10B]), ("Conflict!", [task_key tC10A])] ∧
    generate_plan 0 [] [tC10A, tC10B] [] filtersFalse = [] := by
  refine ⟨?_, ?_, ?_, by decide, by decide⟩
  · intro now all_tasks t hst hd
    constructor
    · rw [classify_entry_schedule_status]
      exact schedule_status_of_error hst hd
    · rw [classify_entry_conflicting_tasks, if_neg (by simpa using hst)]
  · intro filters e hc hs hne
    simp [post_keep, pass_allow, hc, hs, hne]
  · intro filters e hc hne
    simp [post_keep, pass_allow, hc, hne]

/-- Claim C10 witness: the scan-and-status clause applied to the concrete
null-due task tC10A. -/
theorem C10_error_with_conflicts_witness :
    (classify_entry 0 [tC10A, tC10B] tC10A).schedule_status = "Error" ∧
    (classify_entry 0 [tC10A, tC10B] tC10A).conflicting_tasks =
      conflicting_tasks_details tC10A
        (conflict_check_intervals [tC10A, tC10B] tC10A.assignee) :=
  C10_error_with_conflicts.1 0 [tC10A, tC10B] tC10A (by decide) (by decide)
